import Mathlib

/-!
Verification of the detection-and-monitoring engine of the
`real-solana-arbitrage-scanner` repository.

The TypeScript source is shallowly embedded: `Decimal` / JS `number`
values are modelled as `ℚ`; JS `Date.now()` and `new Date().getHours()`
become explicit `now` / `hour` parameters; `Map` lookups become `Option`
parameters.  Where the source can produce the JS float values `NaN` or
`Infinity` (division by zero) and that matters to a claim, the embedding
models it explicitly (see `calculateTrendConfidence`); elsewhere the
degenerate case is noted in a comment on the definition.

Sources embedded:
* `src/scanner/ArbitrageScanner.ts`   (namespace `Scanner`)
* the liquidity monitor module        (namespace `Monitor`)
* `src/monitoring/PriceOracleClient.ts` (namespace `Oracle`)
-/

namespace Scanner

/-- A real-time pool update as cached by the scanner
(`PoolUpdate` in `src/types`): venue (`dex`), pool address, price,
liquidity, 24h volume and the observation timestamp (ms). -/
structure PoolUpdate where
  dex : String
  pool : String
  price : ℚ
  liquidity : ℚ
  volume : ℚ
  timestamp : ℚ
deriving DecidableEq

/-- A venue quote prepared for arbitrage analysis (`DEXPrice`).
The `source`/`poolAddress`/`volume24h` metadata fields play no role in
any computation below and are omitted. -/
structure DEXPrice where
  dex : String
  price : ℚ
  liquidity : ℚ
  timestamp : ℚ
  slippage : ℚ
deriving DecidableEq

/-- An emitted arbitrage opportunity (`TrueArbitrageOpportunity`).
The display-only `pair` label (truncated pool addresses) is omitted. -/
structure TrueArbitrageOpportunity where
  buyDex : String
  sellDex : String
  buyPrice : ℚ
  sellPrice : ℚ
  profitPercentage : ℚ
  liquidityScore : ℚ
  gasEstimate : ℚ
  netProfit : ℚ
  executionProbability : ℚ
  slippageImpact : ℚ
  totalFees : ℚ
  minimumTradeSize : ℚ
  maximumTradeSize : ℚ
  confidence : ℚ
  timestamp : ℚ
deriving DecidableEq

/-- `getDexFeeRate`: static per-venue swap-fee table, default 0.30%. -/
def getDexFeeRate (dex : String) : ℚ :=
  if dex = "Raydium" then 25/10000
  else if dex = "Orca" then 3/1000
  else if dex = "Phoenix" then 2/1000
  else if dex = "Jupiter" then 4/1000
  else if dex = "Meteora" then 3/1000
  else if dex = "Lifinity" then 2/1000
  else if dex = "Aldrin" then 3/1000
  else if dex = "Saber" then 25/10000
  else 3/1000

/-- `getDexReliabilityFactor`: static per-venue reliability table,
default 0.8. -/
def getDexReliabilityFactor (dex : String) : ℚ :=
  if dex = "Raydium" then 95/100
  else if dex = "Orca" then 93/100
  else if dex = "Phoenix" then 90/100
  else if dex = "Jupiter" then 85/100
  else if dex = "Meteora" then 88/100
  else if dex = "Lifinity" then 87/100
  else if dex = "Aldrin" then 85/100
  else if dex = "Saber" then 86/100
  else 8/10

/-- `calculateSlippageFromLiquidity`: liquidity-tiered slippage step
function.  The source's unused local `baseSlippage` is dropped. -/
def calculateSlippageFromLiquidity (liquidity : ℚ) : ℚ :=
  let liquidityInMillions := liquidity / 1000000
  if 100 ≤ liquidityInMillions then 1/1000
  else if 50 ≤ liquidityInMillions then 15/10000
  else if 10 ≤ liquidityInMillions then 2/1000
  else if 1 ≤ liquidityInMillions then 5/1000
  else 1/100

/-- `getNetworkCongestionMultiplier`: `new Date().getHours()` is passed
in as `hour`. -/
def getNetworkCongestionMultiplier (hour : ℕ) : ℚ :=
  if 14 ≤ hour ∧ hour ≤ 18 then 3/2
  else if 9 ≤ hour ∧ hour ≤ 21 then 6/5
  else 1

/-- `calculateGasEstimate`: base gas per tx × 2 transactions ×
congestion multiplier × SOL price (85).  Its two `DEXPrice` parameters
are unused in the source and omitted here. -/
def calculateGasEstimate (hour : ℕ) : ℚ :=
  5/1000000 * 2 * getNetworkCongestionMultiplier hour * 85

/-- `calculateTotalCosts`: swap fees + gas + slippage + protocol fees +
MEV protection.  `buyDex.slippage || 0.001` is modelled as a zero test
(the field is always set by the caller; JS `||` falls back on `0`). -/
def calculateTotalCosts (buyDex sellDex : DEXPrice) (hour : ℕ) : ℚ :=
  let swapFeeBuy := buyDex.price * getDexFeeRate buyDex.dex
  let swapFeeSell := sellDex.price * getDexFeeRate sellDex.dex
  let gasCost := calculateGasEstimate hour
  let slippageBuy := buyDex.price * (if buyDex.slippage = 0 then 1/1000 else buyDex.slippage)
  let slippageSell := sellDex.price * (if sellDex.slippage = 0 then 1/1000 else sellDex.slippage)
  let protocolFeeBuy := buyDex.price * (1/10000)
  let protocolFeeSell := sellDex.price * (1/10000)
  let mevProtection : ℚ := 2/10000
  swapFeeBuy + swapFeeSell + gasCost + slippageBuy + slippageSell
    + protocolFeeBuy + protocolFeeSell + mevProtection

/-- Liquidity-depth multiplier block of `calculateExecutionProbability`
(`if (minLiquidity.lt(...)) probability *= ...` chain); the untouched
branch is the neutral factor 1. -/
def liquidityDepthFactor (minLiquidity : ℚ) : ℚ :=
  if minLiquidity < 100000 then 6/10
  else if minLiquidity < 500000 then 75/100
  else if minLiquidity < 1000000 then 9/10
  else if 5000000 ≤ minLiquidity then 11/10
  else 1

/-- Slippage-impact multiplier block of `calculateExecutionProbability`. -/
def slippageImpactFactor (totalSlippage : ℚ) : ℚ :=
  if 1/100 < totalSlippage then 7/10
  else if 5/1000 < totalSlippage then 85/100
  else 1

/-- Price-age multiplier block of `calculateExecutionProbability`. -/
def priceAgeFactor (maxAge : ℚ) : ℚ :=
  if 10000 < maxAge then 8/10
  else if 5000 < maxAge then 9/10
  else 1

/-- `calculateExecutionProbability`: base 0.85, multiplied in sequence by
the liquidity-tier, slippage-impact, staleness and per-venue reliability
factors, then clamped from above by 1 (`Math.min(probability, 1.0)`).
Each `probability *= ...` if/else-if block of the source is one factor
function above.  `Date.now()` is the explicit `now` parameter;
`slippage || 0` is the field itself (always set by the caller). -/
def calculateExecutionProbability (buyDex sellDex : DEXPrice) (now : ℚ) : ℚ :=
  let minLiquidity := min buyDex.liquidity sellDex.liquidity
  let totalSlippage := buyDex.slippage + sellDex.slippage
  let maxAge := max (now - buyDex.timestamp) (now - sellDex.timestamp)
  let probability := 85/100 * liquidityDepthFactor minLiquidity
    * slippageImpactFactor totalSlippage * priceAgeFactor maxAge
    * getDexReliabilityFactor buyDex.dex * getDexReliabilityFactor sellDex.dex
  min probability 1

/-- Imbalance penalty of `calculateLiquidityScore`, keyed on the ratio
`max/min` of the two liquidities.  When `min = 0` the source's `Decimal`
division gives `Infinity` (if `max > 0`; every `gt` test passes, penalty
0.7) or `NaN` (if `max = 0`; every `gt` test fails, penalty 1), which
the zero tests reproduce. -/
def balancePenalty (maxLiq minLiq : ℚ) : ℚ :=
  if minLiq = 0 then (if maxLiq = 0 then 1 else 7/10)
  else
    let liquidityRatio := maxLiq / minLiq
    if 5 < liquidityRatio then 7/10
    else if 3 < liquidityRatio then 85/100
    else if 2 < liquidityRatio then 95/100
    else 1

/-- `calculateLiquidityScore`: the average-liquidity ratio against the
10M normalizer, times the imbalance penalty, clamped from above by 1. -/
def calculateLiquidityScore (buyDex sellDex : DEXPrice) : ℚ :=
  let avgLiquidity := (buyDex.liquidity + sellDex.liquidity) / 2
  let liquidityScore := avgLiquidity / 10000000
  min (liquidityScore
    * balancePenalty (max buyDex.liquidity sellDex.liquidity)
        (min buyDex.liquidity sellDex.liquidity)) 1

/-- `calculateTradeSizeLimits`: minimum = max($1000, 0.1% of the smaller
pool), maximum = 5% of the smaller pool. -/
def calculateTradeSizeLimits (buyDex sellDex : DEXPrice) : ℚ × ℚ :=
  let minLiquidity := min buyDex.liquidity sellDex.liquidity
  (max 1000 (minLiquidity * (1/1000)), minLiquidity * (5/100))

/-- `calculateTotalFees`: per-venue swap fees on both sides. -/
def calculateTotalFees (buyDex sellDex : DEXPrice) : ℚ :=
  buyDex.price * getDexFeeRate buyDex.dex + sellDex.price * getDexFeeRate sellDex.dex

/-- `calculateRealArbitrage`: orders the two quotes into buy/sell by
price, computes the gross spread and the cost-adjusted net profit, and
returns `none` when the net profit is not positive.  `Date.now()` for
the emitted timestamp is the same `now` used for staleness. -/
def calculateRealArbitrage (dexA dexB : DEXPrice) (now : ℚ) (hour : ℕ) :
    Option TrueArbitrageOpportunity :=
  let buyDex := if dexA.price < dexB.price then dexA else dexB
  let sellDex := if dexA.price < dexB.price then dexB else dexA
  let priceDiff := sellDex.price - buyDex.price
  let profitPercentage := priceDiff / buyDex.price
  let totalCosts := calculateTotalCosts buyDex sellDex hour
  let netProfit := priceDiff - totalCosts
  if netProfit ≤ 0 then none
  else
    let executionProbability := calculateExecutionProbability buyDex sellDex now
    let liquidityScore := calculateLiquidityScore buyDex sellDex
    let tradeSizeLimits := calculateTradeSizeLimits buyDex sellDex
    some {
      buyDex := buyDex.dex
      sellDex := sellDex.dex
      buyPrice := buyDex.price
      sellPrice := sellDex.price
      profitPercentage := profitPercentage * 100
      liquidityScore := liquidityScore
      gasEstimate := calculateGasEstimate hour
      netProfit := netProfit
      executionProbability := executionProbability
      slippageImpact := buyDex.slippage + sellDex.slippage
      totalFees := calculateTotalFees buyDex sellDex
      minimumTradeSize := tradeSizeLimits.1
      maximumTradeSize := tradeSizeLimits.2
      confidence := executionProbability * liquidityScore
      timestamp := now }

/-- `calculateArbitrageOpportunity`: converts the two cached
`PoolUpdate`s to `DEXPrice` (attaching the liquidity-tiered slippage)
and delegates to `calculateRealArbitrage`.  Nothing in the embedded
computation throws, so the source's try/catch is not represented. -/
def calculateArbitrageOpportunity (a b : PoolUpdate) (now : ℚ) (hour : ℕ) :
    Option TrueArbitrageOpportunity :=
  calculateRealArbitrage
    { dex := a.dex, price := a.price, liquidity := a.liquidity,
      timestamp := a.timestamp, slippage := calculateSlippageFromLiquidity a.liquidity }
    { dex := b.dex, price := b.price, liquidity := b.liquidity,
      timestamp := b.timestamp, slippage := calculateSlippageFromLiquidity b.liquidity }
    now hour

/-- One iteration of the pair loop in `checkArbitrageOpportunities`:
skip the pair when both quotes come from the same venue, otherwise
evaluate it and keep the opportunity only when its profit percentage is
at least the configured minimum-profit threshold (`gte`). -/
def evaluatePair (minProfitThreshold : ℚ) (a b : PoolUpdate) (now : ℚ) (hour : ℕ) :
    Option TrueArbitrageOpportunity :=
  if a.dex = b.dex then none
  else
    match calculateArbitrageOpportunity a b now hour with
    | none => none
    | some opportunity =>
        if minProfitThreshold ≤ opportunity.profitPercentage then some opportunity else none

end Scanner

namespace Monitor

/-- One liquidity sample (`LiquidityDataPoint`): timestamp (ms),
liquidity, volume, utilization. -/
structure LiquidityDataPoint where
  timestamp : ℚ
  liquidity : ℚ
  volume : ℚ
  utilization : ℚ
deriving DecidableEq, Inhabited

/-- Trend direction of a `LiquidityTrend`. -/
inductive Trend where
  | increasing
  | decreasing
  | stable
  | volatile
deriving DecidableEq

/-- A computed liquidity trend (`LiquidityTrend`).  The `poolAddress`
and `timeframe` echo fields are omitted.  `confidence` is an
`Option ℚ`: `none` models the JS float value `NaN` (see
`calculateTrendConfidence`). -/
structure LiquidityTrend where
  trend : Trend
  changePercent : ℚ
  confidence : Option ℚ
  dataPoints : List LiquidityDataPoint
deriving DecidableEq

/-- Alert kinds of `LiquidityAlert`. -/
inductive AlertType where
  | low_liquidity
  | high_impact
  | pool_drain
  | anomaly
deriving DecidableEq

/-- Alert severities of `LiquidityAlert`. -/
inductive Severity where
  | low
  | medium
  | high
  | critical
deriving DecidableEq

/-- A liquidity alert (`LiquidityAlert`) as built by `createAlert`:
kind, severity and the `data` payload (current liquidity, threshold,
change).  The free-text `message`, the placeholder `dex`/`poolAddress`
strings, the constant `duration: 0` and the emission timestamp are
omitted. -/
structure LiquidityAlert where
  type : AlertType
  severity : Severity
  currentLiquidity : ℚ
  thresholdLiquidity : ℚ
  change : ℚ
deriving DecidableEq

/-- Pool reserve snapshot (`PoolLiquidity`): only the fields the monitor
reads (the two reserves and the USD total). -/
structure PoolLiquidity where
  reserveA : ℚ
  reserveB : ℚ
  totalLiquidity : ℚ
deriving DecidableEq

/-- `calculateLiquidityUtilization`: `1 − |valueA − valueB|/(valueA+valueB)`
floored at 0, with tokenA valued at $85 per unit and tokenB at $1.
When both reserves are 0 the source divides 0 by 0 (`NaN`, and
`Math.max(0, NaN)` stays `NaN`); here `ℚ` division by zero gives 0 and
hence utilization 1.  No claim depends on that degenerate value. -/
def calculateLiquidityUtilization (liquidity : PoolLiquidity) : ℚ :=
  let tokenAValue := liquidity.reserveA * 85
  let tokenBValue := liquidity.reserveB
  let totalValue := tokenAValue + tokenBValue
  let imbalance := |tokenAValue - tokenBValue| / totalValue
  max 0 (1 - imbalance)

/-- History append of `updateLiquidityData`: `push` followed by
`splice(0, length − 2000)` whenever the 2000-point limit is exceeded,
i.e. only the newest 2000 points are kept. -/
def appendLiquidityPoint (history : List LiquidityDataPoint) (p : LiquidityDataPoint) :
    List LiquidityDataPoint :=
  let pushed := history ++ [p]
  if 2000 < pushed.length then pushed.drop (pushed.length - 2000) else pushed

/-- A liquidity history built by repeated `updateLiquidityData` appends,
starting from the empty history installed by `monitorPoolLiquidity`. -/
def historyOfUpdates (ps : List LiquidityDataPoint) : List LiquidityDataPoint :=
  ps.foldl appendLiquidityPoint []

/-- `calculateLiquidityDrop`: relative drop between the first and last
points of a window; 0 when the window has fewer than 2 points or the
last point is not below the first. -/
def calculateLiquidityDrop (history : List LiquidityDataPoint) : ℚ :=
  if history.length < 2 then 0
  else
    let first := (List.headI history).liquidity
    let last := (List.getLastI history).liquidity
    if first ≤ last then 0
    else (first - last) / first

/-- `detectLiquidityAnomaly`: z-score of the current value against the
mean/stddev of the last 20 points.  The float test
`|current − mean| / stdDev > 2` is encoded without `sqrt` as
`(current − mean)² > 4·variance`; the two agree whenever `stdDev > 0`,
and when `stdDev = 0` the JS quotient is `Infinity` (if the numerator is
positive: both report an anomaly) or `NaN` (if it is zero: neither
does). -/
def detectLiquidityAnomaly (history : List LiquidityDataPoint)
    (dataPoint : LiquidityDataPoint) : Bool :=
  if history.length < 20 then false
  else
    let recentHistory := history.drop (history.length - 20)
    let values := recentHistory.map (fun p => p.liquidity)
    let mean := values.sum / (values.length : ℚ)
    let variance := (values.map (fun v => (v - mean) ^ 2)).sum / (values.length : ℚ)
    let currentValue := dataPoint.liquidity
    decide (4 * variance < (currentValue - mean) ^ 2)

/-- `checkLiquidityAlertsForPool`: run after the new point is stored.
Returns (in emission order) the alerts created for this update.  A pool
with no configured threshold returns immediately with no alerts
(`if (!threshold) return`).  The drain rule fires on a drop strictly
greater than 20% over the last 5 stored points. -/
def checkLiquidityAlertsForPool (threshold? : Option ℚ)
    (history : List LiquidityDataPoint) (dataPoint : LiquidityDataPoint) :
    List LiquidityAlert :=
  match threshold? with
  | none => []
  | some threshold =>
    let currentLiquidity := dataPoint.liquidity
    let lowAlerts : List LiquidityAlert :=
      if currentLiquidity < threshold then
        [⟨.low_liquidity, .high, currentLiquidity, threshold, 0⟩]
      else []
    let drainAlerts : List LiquidityAlert :=
      if 5 ≤ history.length then
        let recentHistory := history.drop (history.length - 5)
        let liquidityDrop := calculateLiquidityDrop recentHistory
        if 1/5 < liquidityDrop then
          [⟨.pool_drain, .critical, currentLiquidity, threshold, liquidityDrop⟩]
        else []
      else []
    let anomalyAlerts : List LiquidityAlert :=
      if detectLiquidityAnomaly history dataPoint then
        [⟨.anomaly, .medium, currentLiquidity, threshold, 0⟩]
      else []
    lowAlerts ++ drainAlerts ++ anomalyAlerts

/-- Result of one `updateLiquidityData` call: the new stored history,
the alerts created (each is also emitted as a `liquidityAlert` event)
and whether the `liquidityUpdated` event was emitted. -/
structure UpdateResult where
  history : List LiquidityDataPoint
  alerts : List LiquidityAlert
  liquidityUpdatedEmitted : Bool
deriving DecidableEq

/-- `updateLiquidityData` for one pool, as a pure state transition on
that pool's history.  `threshold?` is the pool's entry in the
`liquidityThresholds` map (`none` when absent); `now` is `Date.now()`.
The volume of the new point is the constant 0, as in the source. -/
def updateLiquidityData (threshold? : Option ℚ)
    (history : List LiquidityDataPoint) (liquidity : PoolLiquidity) (now : ℚ) :
    UpdateResult :=
  let dataPoint : LiquidityDataPoint :=
    ⟨now, liquidity.totalLiquidity, 0, calculateLiquidityUtilization liquidity⟩
  let newHistory := appendLiquidityPoint history dataPoint
  let alerts := checkLiquidityAlertsForPool threshold? newHistory dataPoint
  ⟨newHistory, alerts, true⟩

/-- Index sum `sumX` of `calculateTrend` (`reduce` over positions). -/
def sumX (data : List LiquidityDataPoint) : ℚ :=
  ((List.range data.length).map (fun i => (i : ℚ))).sum

/-- Value sum `sumY` of `calculateTrend`. -/
def sumY (data : List LiquidityDataPoint) : ℚ :=
  (data.map (fun p => p.liquidity)).sum

/-- Cross sum `sumXY` of `calculateTrend`. -/
def sumXY (data : List LiquidityDataPoint) : ℚ :=
  (data.enum.map (fun q => (q.1 : ℚ) * q.2.liquidity)).sum

/-- Squared-index sum `sumX2` of `calculateTrend`. -/
def sumX2 (data : List LiquidityDataPoint) : ℚ :=
  ((List.range data.length).map (fun i => (i : ℚ) ^ 2)).sum

/-- Ordinary-least-squares slope of liquidity against index (`slope` in
`calculateTrend`; renamed to avoid clashing with Mathlib's `slope`).
The denominator vanishes only for fewer than 2 points, which the length
guard of `calculateTrend` excludes. -/
def trendSlope (data : List LiquidityDataPoint) : ℚ :=
  let n : ℚ := (data.length : ℚ)
  (n * sumXY data - sumX data * sumY data) / (n * sumX2 data - sumX data * sumX data)

/-- Mean liquidity `avgLiquidity = sumY / n` of `calculateTrend`. -/
def avgLiquidity (data : List LiquidityDataPoint) : ℚ :=
  sumY data / (data.length : ℚ)

/-- Population variance of the liquidity values, as computed inside
`calculateTrend`. -/
def liquidityVariance (data : List LiquidityDataPoint) : ℚ :=
  (data.map (fun p => (p.liquidity - avgLiquidity data) ^ 2)).sum / (data.length : ℚ)

/-- `calculateTrend`: volatile when the relative standard deviation
exceeds 10%, stable when |slope| is below 0.1% of the mean, otherwise by
sign of the slope.  The float test `stdDev / avg > 0.1` is encoded
without `sqrt` as `variance > (avg/10)²`; the two agree for `avg > 0`,
and for `avg = 0` (all-zero liquidity of nonnegative data) the JS
quotient is `Infinity` when `stdDev > 0` (both classify volatile) and
`NaN` when `stdDev = 0` (neither does). -/
def calculateTrend (data : List LiquidityDataPoint) : Trend :=
  if data.length < 3 then .stable
  else
    let avg := avgLiquidity data
    if (avg / 10) ^ 2 < liquidityVariance data then .volatile
    else if |trendSlope data| < avg * (1/1000) then .stable
    else if 0 < trendSlope data then .increasing
    else .decreasing

/-- `calculateChangePercent`: `(last − first)/first × 100`, 0 for fewer
than 2 points. -/
def calculateChangePercent (data : List LiquidityDataPoint) : ℚ :=
  if data.length < 2 then 0
  else
    let first := (List.headI data).liquidity
    let last := (List.getLastI data).liquidity
    (last - first) / first * 100

/-- `calculateTrendConfidence`: 0.3 for fewer than 5 points, otherwise
`min(0.95, max(0, 1 − residualSS/totalSS) · min(1, n/50) + 0.1)`.
`none` models `NaN`: when `totalSS = 0` (all values equal) the source
computes `residualSS/totalSS = 0/0 = NaN`, and `NaN` propagates through
`Math.max` and `Math.min` into the returned confidence. -/
def calculateTrendConfidence (data : List LiquidityDataPoint) : Option ℚ :=
  if data.length < 5 then some (3/10)
  else
    let n : ℚ := (data.length : ℚ)
    let avgY : ℚ := sumY data / n
    let totalSS : ℚ := (data.map (fun p => (p.liquidity - avgY) ^ 2)).sum
    let residualSS : ℚ :=
      ((data.zip data.tail).map (fun q => (q.2.liquidity - q.1.liquidity) ^ 2)).sum
    if totalSS = 0 then none
    else
      let rSquared := max 0 (1 - residualSS / totalSS)
      let dataPointsFactor := min 1 (n / 50)
      some (min (95/100) (rSquared * dataPointsFactor + 1/10))

/-- `filterDataByTimeframe`: explicit cutoffs for the five named
timeframes, otherwise the last 100 points (`slice(−100)`). -/
def filterDataByTimeframe (history : List LiquidityDataPoint)
    (timeframe : String) (now : ℚ) : List LiquidityDataPoint :=
  if timeframe = "1m" then history.filter (fun p => now - 60000 ≤ p.timestamp)
  else if timeframe = "5m" then history.filter (fun p => now - 300000 ≤ p.timestamp)
  else if timeframe = "15m" then history.filter (fun p => now - 900000 ≤ p.timestamp)
  else if timeframe = "1h" then history.filter (fun p => now - 3600000 ≤ p.timestamp)
  else if timeframe = "24h" then history.filter (fun p => now - 86400000 ≤ p.timestamp)
  else history.drop (history.length - 100)

/-- `getLiquidityTrend` on a pool's stored history: `none` for fewer
than 10 total points or fewer than 5 after timeframe filtering,
otherwise the trend record over the filtered window.  Nothing in the
embedded computation throws, so the source's try/catch is not
represented. -/
def getLiquidityTrend (history : List LiquidityDataPoint)
    (timeframe : String) (now : ℚ) : Option LiquidityTrend :=
  if history.length < 10 then none
  else
    let filteredData := filterDataByTimeframe history timeframe now
    if filteredData.length < 5 then none
    else
      some {
        trend := calculateTrend filteredData
        changePercent := calculateChangePercent filteredData
        confidence := calculateTrendConfidence filteredData
        dataPoints := filteredData }

end Monitor

namespace Oracle

/-- One oracle reading (`OraclePrice`): only the two fields
`calculateConsensus` reads (the price and its confidence interval);
the `source`/`timestamp`/`exponent`/`status`/`publishSlot` metadata is
not consulted by the consensus computation. -/
structure OraclePrice where
  price : ℚ
  confidence : ℚ
deriving DecidableEq

/-- The consensus part of `MultiOraclePrice`. -/
structure Consensus where
  price : ℚ
  confidence : ℚ
  agreement : ℚ
deriving DecidableEq

/-- `calculateConsensus`: degenerate zero result for no readings, the
single reading passed through with weight `1 − confidence/price` and
agreement 1, and for several readings the confidence-weighted average
with agreement `1 − max relative deviation` (floored at 0).
`Math.max(...deviations)` over the nonempty deviation list is modelled
as a fold with neutral element 0 (every deviation is an absolute value,
hence nonnegative). -/
def calculateConsensus (prices : List OraclePrice) : Consensus :=
  match prices with
  | [] => ⟨0, 0, 0⟩
  | [p] => ⟨p.price, 1 - p.confidence / p.price, 1⟩
  | _ =>
    let totalWeight := (prices.map (fun p => 1 - p.confidence / p.price)).sum
    let weightedSum := (prices.map (fun p => p.price * (1 - p.confidence / p.price))).sum
    let consensusPrice := weightedSum / totalWeight
    let deviations := prices.map (fun p => |(p.price - consensusPrice) / consensusPrice|)
    let maxDeviation := deviations.foldr max 0
    let agreement := max 0 (1 - maxDeviation)
    let avgConfidence := totalWeight / (prices.length : ℚ)
    ⟨consensusPrice, avgConfidence * agreement, agreement⟩

end Oracle

open Scanner Monitor Oracle

/-! Concrete inputs used by counterexamples and witnesses. -/

/-- A Raydium quote at price 100 with 2M liquidity, fresh at time 0. -/
def cexUpdateA : PoolUpdate := ⟨"Raydium", "PoolAAAA", 100, 2000000, 0, 0⟩

/-- An Orca quote at price 102 with 2M liquidity, fresh at time 0. -/
def cexUpdateB : PoolUpdate := ⟨"Orca", "PoolBBBB", 102, 2000000, 0, 0⟩

/-- The opportunity the scanner emits for `cexUpdateA`/`cexUpdateB` at
time 0, hour 0: all fields written out as computed by
`calculateRealArbitrage`. -/
def cexOpportunity : TrueArbitrageOpportunity :=
  ⟨"Raydium", "Orca", 100, 102, 2, 1/5, 17/20000, 1651/4000, 510663/800000,
   1/100, 139/250, 2000, 100000, 510663/4000000, 0⟩

/-- A strictly increasing 10-point liquidity history (values 1..10). -/
def cexIncreasingHist : List LiquidityDataPoint :=
  [⟨1000, 1, 0, 0⟩, ⟨1001, 2, 0, 0⟩, ⟨1002, 3, 0, 0⟩, ⟨1003, 4, 0, 0⟩, ⟨1004, 5, 0, 0⟩,
   ⟨1005, 6, 0, 0⟩, ⟨1006, 7, 0, 0⟩, ⟨1007, 8, 0, 0⟩, ⟨1008, 9, 0, 0⟩, ⟨1009, 10, 0, 0⟩]

/-- A 10-point history whose liquidity values are all equal (100). -/
def cexConstantHist : List LiquidityDataPoint :=
  [⟨0, 100, 0, 0⟩, ⟨1, 100, 0, 0⟩, ⟨2, 100, 0, 0⟩, ⟨3, 100, 0, 0⟩, ⟨4, 100, 0, 0⟩,
   ⟨5, 100, 0, 0⟩, ⟨6, 100, 0, 0⟩, ⟨7, 100, 0, 0⟩, ⟨8, 100, 0, 0⟩, ⟨9, 100, 0, 0⟩]

/-- A gently but strictly increasing 10-point history (1000, 1010, …,
1090): low relative variance, slope 10 above 0.1% of the mean. -/
def witIncreasingHist : List LiquidityDataPoint :=
  [⟨0, 1000, 0, 0⟩, ⟨1, 1010, 0, 0⟩, ⟨2, 1020, 0, 0⟩, ⟨3, 1030, 0, 0⟩, ⟨4, 1040, 0, 0⟩,
   ⟨5, 1050, 0, 0⟩, ⟨6, 1060, 0, 0⟩, ⟨7, 1070, 0, 0⟩, ⟨8, 1080, 0, 0⟩, ⟨9, 1090, 0, 0⟩]

/-- A 5-point history dropping from 100 to exactly 80 (a 20% drop). -/
def cexDrainBoundaryHist : List LiquidityDataPoint :=
  [⟨0, 100, 0, 0⟩, ⟨1, 95, 0, 0⟩, ⟨2, 90, 0, 0⟩, ⟨3, 85, 0, 0⟩, ⟨4, 80, 0, 0⟩]

/-- A 5-point history dropping from 100 to 60 (a 40% drop). -/
def witDrainHist : List LiquidityDataPoint :=
  [⟨0, 100, 0, 0⟩, ⟨1, 90, 0, 0⟩, ⟨2, 80, 0, 0⟩, ⟨3, 70, 0, 0⟩, ⟨4, 60, 0, 0⟩]

/-- Comparing data points by liquidity is transitive (used to turn a
chain of strict increases into pairwise facts). -/
instance : IsTrans LiquidityDataPoint (fun p q => p.liquidity < q.liquidity) :=
  ⟨fun _ _ _ => lt_trans⟩

/-! Shared helper lemmas. -/

/-- Every branch of the liquidity-depth factor is positive. -/
theorem liquidityDepthFactor_pos (x : ℚ) : 0 < liquidityDepthFactor x := by
  unfold liquidityDepthFactor; split_ifs <;> norm_num

/-- Every branch of the slippage-impact factor is positive. -/
theorem slippageImpactFactor_pos (x : ℚ) : 0 < slippageImpactFactor x := by
  unfold slippageImpactFactor; split_ifs <;> norm_num

/-- Every branch of the price-age factor is positive. -/
theorem priceAgeFactor_pos (x : ℚ) : 0 < priceAgeFactor x := by
  unfold priceAgeFactor; split_ifs <;> norm_num

/-- Every branch of the balance penalty is positive. -/
theorem balancePenalty_pos (x y : ℚ) : 0 < balancePenalty x y := by
  simp only [balancePenalty]; split_ifs <;> norm_num

/-- Evaluation of `evaluatePair` on the concrete Raydium/Orca pair:
the emitted opportunity is `cexOpportunity`. -/
theorem cex_evaluatePair_eq :
    evaluatePair (1/2) cexUpdateA cexUpdateB 0 0 = some cexOpportunity := by
  have hRO : ("Raydium" : String) ≠ "Orca" := by decide
  have hOR : ("Orca" : String) ≠ "Raydium" := by decide
  norm_num [evaluatePair, calculateArbitrageOpportunity, calculateRealArbitrage,
    calculateTotalCosts, calculateGasEstimate, getNetworkCongestionMultiplier,
    getDexFeeRate, getDexReliabilityFactor, calculateSlippageFromLiquidity,
    calculateExecutionProbability, liquidityDepthFactor, slippageImpactFactor,
    priceAgeFactor, calculateLiquidityScore, balancePenalty, calculateTradeSizeLimits,
    calculateTotalFees, cexUpdateA, cexUpdateB, cexOpportunity, hRO, hOR]

/-- Every entry of the venue fee table is positive. -/
theorem getDexFeeRate_pos (dex : String) : 0 < getDexFeeRate dex := by
  unfold getDexFeeRate; split_ifs <;> norm_num

/-- Every entry of the venue reliability table is positive. -/
theorem getDexReliabilityFactor_pos (dex : String) : 0 < getDexReliabilityFactor dex := by
  unfold getDexReliabilityFactor; split_ifs <;> norm_num

/-- The gas estimate is positive at every hour. -/
theorem calculateGasEstimate_pos (hour : ℕ) : 0 < calculateGasEstimate hour := by
  unfold calculateGasEstimate getNetworkCongestionMultiplier; split_ifs <;> norm_num

/-! Claim theorems. -/

/-- C2: for every pair of observations from the same venue, pair
evaluation rejects the pair and returns no opportunity, whatever the
prices, liquidities and timestamps are. -/
theorem evaluatePair_same_venue_none (minProfitThreshold : ℚ) (a b : PoolUpdate)
    (now : ℚ) (hour : ℕ) (h : a.dex = b.dex) :
    evaluatePair minProfitThreshold a b now hour = none := by
  simp [evaluatePair, h]

/-- Witness for C2: two same-venue Raydium quotes with different prices
are rejected. -/
theorem evaluatePair_same_venue_none_witness :
    evaluatePair (1/2) ⟨"Raydium", "PoolAAAA", 100, 2000000, 0, 0⟩
      ⟨"Raydium", "PoolBBBB", 102, 2000000, 0, 0⟩ 0 0 = none :=
  evaluatePair_same_venue_none (1/2) ⟨"Raydium", "PoolAAAA", 100, 2000000, 0, 0⟩
    ⟨"Raydium", "PoolBBBB", 102, 2000000, 0, 0⟩ 0 0 rfl

/-- C4: the cost estimate is a total function of its inputs — for
non-negative prices and slippages it returns a non-negative total — and
an observation with zero liquidity is assigned the highest slippage tier
(1.00%) rather than causing an error. -/
theorem calculateTotalCosts_total_and_zero_liquidity (buyDex sellDex : DEXPrice)
    (hour : ℕ) (hbp : 0 ≤ buyDex.price) (hsp : 0 ≤ sellDex.price)
    (hbs : 0 ≤ buyDex.slippage) (hss : 0 ≤ sellDex.slippage) :
    calculateSlippageFromLiquidity 0 = 1/100 ∧
    0 ≤ calculateTotalCosts buyDex sellDex hour := by
  constructor
  · norm_num [calculateSlippageFromLiquidity]
  · have hgas := (calculateGasEstimate_pos hour).le
    have hfb := (getDexFeeRate_pos buyDex.dex).le
    have hfs := (getDexFeeRate_pos sellDex.dex).le
    unfold calculateTotalCosts
    have h1 : (0:ℚ) ≤ buyDex.price * (if buyDex.slippage = 0 then 1/1000 else buyDex.slippage) := by
      split_ifs <;> [positivity; exact mul_nonneg hbp hbs]
    have h2 : (0:ℚ) ≤ sellDex.price * (if sellDex.slippage = 0 then 1/1000 else sellDex.slippage) := by
      split_ifs <;> [positivity; exact mul_nonneg hsp hss]
    have h3 : (0:ℚ) ≤ buyDex.price * getDexFeeRate buyDex.dex := mul_nonneg hbp hfb
    have h4 : (0:ℚ) ≤ sellDex.price * getDexFeeRate sellDex.dex := mul_nonneg hsp hfs
    have h5 : (0:ℚ) ≤ buyDex.price * (1/10000) := by positivity
    have h6 : (0:ℚ) ≤ sellDex.price * (1/10000) := by positivity
    have h7 : (0:ℚ) ≤ 2/10000 := by norm_num
    linarith

/-- Witness for C4: both observations at zero liquidity (slippage tier
1.00%) still give a well-defined, non-negative cost total. -/
theorem calculateTotalCosts_total_and_zero_liquidity_witness :
    calculateSlippageFromLiquidity 0 = 1/100 ∧
    0 ≤ calculateTotalCosts ⟨"Raydium", 100, 0, 0, calculateSlippageFromLiquidity 0⟩
      ⟨"Orca", 102, 0, 0, calculateSlippageFromLiquidity 0⟩ 0 :=
  calculateTotalCosts_total_and_zero_liquidity
    ⟨"Raydium", 100, 0, 0, calculateSlippageFromLiquidity 0⟩
    ⟨"Orca", 102, 0, 0, calculateSlippageFromLiquidity 0⟩ 0
    (by norm_num) (by norm_num)
    (by norm_num [calculateSlippageFromLiquidity])
    (by norm_num [calculateSlippageFromLiquidity])

/-- C9: consensus over one oracle reading with positive price returns
that price unchanged with agreement 1 and confidence
`1 − confidenceInterval/price`, and consensus over the empty reading
list is the degenerate result with price 0, confidence 0, agreement 0. -/
theorem calculateConsensus_single_and_empty (p : OraclePrice) (hp : 0 < p.price) :
    calculateConsensus [p] = ⟨p.price, 1 - p.confidence / p.price, 1⟩ ∧
    calculateConsensus [] = ⟨0, 0, 0⟩ :=
  ⟨rfl, rfl⟩

/-- Witness for C9: a single reading at price 85 with confidence
interval 1/2 passes through with agreement 1. -/
theorem calculateConsensus_single_and_empty_witness :
    calculateConsensus [⟨85, 1/2⟩] = ⟨85, 1 - (1/2) / 85, 1⟩ ∧
    calculateConsensus [] = ⟨0, 0, 0⟩ :=
  calculateConsensus_single_and_empty ⟨85, 1/2⟩ (by norm_num)

/-- C10: for a pool with no configured liquidity threshold,
`updateLiquidityData` appends the data point to the history and emits
the `liquidityUpdated` event, but emits no alert of any type — whatever
the data, including data meeting the drain or anomaly conditions. -/
theorem updateLiquidityData_no_threshold_silent (history : List LiquidityDataPoint)
    (liquidity : PoolLiquidity) (now : ℚ) :
    (updateLiquidityData none history liquidity now).alerts = [] ∧
    (updateLiquidityData none history liquidity now).history =
      appendLiquidityPoint history
        ⟨now, liquidity.totalLiquidity, 0, calculateLiquidityUtilization liquidity⟩ ∧
    (updateLiquidityData none history liquidity now).liquidityUpdatedEmitted = true :=
  ⟨rfl, rfl, rfl⟩

/-- C3: for all observations with non-negative liquidities (any prices,
slippages and timestamps), the execution probability and the liquidity
score both lie in [0,1] — including when one or both liquidities are
zero. -/
theorem executionProbability_liquidityScore_unit_interval
    (buyDex sellDex : DEXPrice) (now : ℚ)
    (hb : 0 ≤ buyDex.liquidity) (hs : 0 ≤ sellDex.liquidity) :
    (0 ≤ calculateExecutionProbability buyDex sellDex now ∧
     calculateExecutionProbability buyDex sellDex now ≤ 1) ∧
    (0 ≤ calculateLiquidityScore buyDex sellDex ∧
     calculateLiquidityScore buyDex sellDex ≤ 1) := by
  have h1 := getDexReliabilityFactor_pos buyDex.dex
  have h2 := getDexReliabilityFactor_pos sellDex.dex
  have h3 := liquidityDepthFactor_pos (min buyDex.liquidity sellDex.liquidity)
  have h4 := slippageImpactFactor_pos (buyDex.slippage + sellDex.slippage)
  have h5 := priceAgeFactor_pos (max (now - buyDex.timestamp) (now - sellDex.timestamp))
  have h6 := balancePenalty_pos (max buyDex.liquidity sellDex.liquidity)
    (min buyDex.liquidity sellDex.liquidity)
  refine ⟨⟨?_, ?_⟩, ?_, ?_⟩
  · simp only [calculateExecutionProbability]
    exact le_min (by positivity) zero_le_one
  · simp only [calculateExecutionProbability]
    exact min_le_right _ _
  · simp only [calculateLiquidityScore]
    exact le_min (by positivity) zero_le_one
  · simp only [calculateLiquidityScore]
    exact min_le_right _ _

/-- Witness for C3: both bounds hold at the degenerate pair with both
liquidities zero (fresh quotes at time 0). -/
theorem executionProbability_liquidityScore_unit_interval_witness :
    (0 ≤ calculateExecutionProbability ⟨"Raydium", 100, 0, 0, 1/100⟩
        ⟨"Orca", 102, 0, 0, 1/100⟩ 0 ∧
     calculateExecutionProbability ⟨"Raydium", 100, 0, 0, 1/100⟩
        ⟨"Orca", 102, 0, 0, 1/100⟩ 0 ≤ 1) ∧
    (0 ≤ calculateLiquidityScore ⟨"Raydium", 100, 0, 0, 1/100⟩
        ⟨"Orca", 102, 0, 0, 1/100⟩ ∧
     calculateLiquidityScore ⟨"Raydium", 100, 0, 0, 1/100⟩
        ⟨"Orca", 102, 0, 0, 1/100⟩ ≤ 1) :=
  executionProbability_liquidityScore_unit_interval
    ⟨"Raydium", 100, 0, 0, 1/100⟩ ⟨"Orca", 102, 0, 0, 1/100⟩ 0
    (by norm_num) (by norm_num)

/-- C1 counterexample: on the concrete Raydium@100 / Orca@102 pair
(2M liquidity each, fresh quotes, threshold 0.5%), an opportunity is
emitted whose `profitPercentage` is 2 — the gross spread over the buy
price — while `netProfit / buy.price × 100` is 1651/4000 ≈ 0.41275, so
the emitted profit percentage is not computed from the cost-adjusted
net profit. -/
theorem profitPercentage_not_from_netProfit_cex :
    evaluatePair (1/2) cexUpdateA cexUpdateB 0 0 = some cexOpportunity ∧
    cexOpportunity.profitPercentage = 2 ∧
    cexOpportunity.netProfit / cexOpportunity.buyPrice * 100 = 1651/4000 ∧
    ¬ cexOpportunity.profitPercentage =
        cexOpportunity.netProfit / cexOpportunity.buyPrice * 100 :=
  ⟨cex_evaluatePair_eq, by norm_num [cexOpportunity], by norm_num [cexOpportunity],
   by norm_num [cexOpportunity]⟩

/-- C1 (amended): every opportunity emitted by pair evaluation carries
`profitPercentage = (sell.price − buy.price) / buy.price × 100` — the
gross spread, not the cost-adjusted net profit — and no opportunity
whose profit percentage is below the configured minimum-profit
threshold is emitted. -/
theorem evaluatePair_profitPercentage_gross (minProfitThreshold : ℚ) (a b : PoolUpdate)
    (now : ℚ) (hour : ℕ) (opp : TrueArbitrageOpportunity)
    (h : evaluatePair minProfitThreshold a b now hour = some opp) :
    opp.profitPercentage = (opp.sellPrice - opp.buyPrice) / opp.buyPrice * 100 ∧
    minProfitThreshold ≤ opp.profitPercentage := by
  unfold evaluatePair at h
  split at h
  · exact absurd h (by simp)
  · rcases ho : calculateArbitrageOpportunity a b now hour with _ | o
    · rw [ho] at h; exact absurd h (by simp)
    · rw [ho] at h
      dsimp only at h
      split at h
      · rename_i hth
        injection h with h'
        subst h'
        refine ⟨?_, hth⟩
        unfold calculateArbitrageOpportunity calculateRealArbitrage at ho
        dsimp only at ho
        split at ho <;>
          (split at ho
           · exact absurd ho (by simp)
           · injection ho with ho'
             subst ho'
             rfl)
      · exact absurd h (by simp)

/-- Witness for C1 (amended): the concrete emitted opportunity has the
gross profit percentage 2 = (102 − 100)/100 × 100, which meets the 0.5
threshold. -/
theorem evaluatePair_profitPercentage_gross_witness :
    cexOpportunity.profitPercentage =
      (cexOpportunity.sellPrice - cexOpportunity.buyPrice) / cexOpportunity.buyPrice * 100 ∧
    (1/2 : ℚ) ≤ cexOpportunity.profitPercentage :=
  evaluatePair_profitPercentage_gross (1/2) cexUpdateA cexUpdateB 0 0 cexOpportunity
    cex_evaluatePair_eq

/-- One history append keeps only a suffix of the pushed list (the
oldest points are the ones evicted). -/
theorem appendLiquidityPoint_suffix (h : List LiquidityDataPoint) (p : LiquidityDataPoint) :
    appendLiquidityPoint h p <:+ h ++ [p] := by
  unfold appendLiquidityPoint
  dsimp only
  split_ifs
  · exact List.drop_suffix _ _
  · exact List.suffix_refl _

/-- One history append never leaves more than 2000 points. -/
theorem appendLiquidityPoint_length (h : List LiquidityDataPoint) (p : LiquidityDataPoint)
    (hlen : h.length ≤ 2000) : (appendLiquidityPoint h p).length ≤ 2000 := by
  unfold appendLiquidityPoint
  dsimp only
  split_ifs with hc
  · rw [List.length_drop]
    omega
  · simp only [List.length_append, List.length_cons, List.length_nil] at hc ⊢
    omega

/-- One history append always keeps the new point as the last element. -/
theorem appendLiquidityPoint_getLast? (h : List LiquidityDataPoint) (p : LiquidityDataPoint) :
    (appendLiquidityPoint h p).getLast? = some p := by
  unfold appendLiquidityPoint
  dsimp only
  split_ifs with hc
  · rw [List.getLast?_eq_getElem?, List.getElem?_drop, List.length_drop]
    have he : (h ++ [p]).length - 2000 + ((h ++ [p]).length - ((h ++ [p]).length - 2000) - 1)
        = (h ++ [p]).length - 1 := by omega
    rw [he, ← List.getLast?_eq_getElem?]
    exact List.getLast?_concat _
  · exact List.getLast?_concat _

/-- A strictly liquidity-increasing chain has its head strictly below
its last element (for at least 2 points). -/
theorem chain'_headI_lt_getLastI (d : List LiquidityDataPoint)
    (hmono : d.Chain' (fun p q => p.liquidity < q.liquidity)) (h2 : 2 ≤ d.length) :
    (List.headI d).liquidity < (List.getLastI d).liquidity := by
  match d, h2 with
  | a :: b :: rest, _ =>
    rw [List.chain'_iff_pairwise, List.pairwise_cons] at hmono
    have hne : b :: rest ≠ [] := by simp
    have hlast : (a :: b :: rest).getLastI = (b :: rest).getLast hne := by
      rw [List.getLastI_eq_getLast?, List.getLast?_eq_getLast (a :: b :: rest) (by simp),
        List.getLast_cons hne]
    rw [hlast]
    exact hmono.1 _ (List.getLast_mem hne)

/-- C8: a per-pool liquidity history built from any sequence of updates
never exceeds 2000 points, is a suffix of the full insertion sequence
(so eviction removes oldest points first and the retained points keep
their insertion order), and its last element is the newest update. -/
theorem liquidityHistory_capacity_invariant (ps : List LiquidityDataPoint) :
    (historyOfUpdates ps).length ≤ 2000 ∧
    historyOfUpdates ps <:+ ps ∧
    (historyOfUpdates ps).getLast? = ps.getLast? := by
  induction ps using List.reverseRecOn with
  | nil => exact ⟨by simp [historyOfUpdates], by simp [historyOfUpdates], rfl⟩
  | append_singleton t p ih =>
    have hfold : historyOfUpdates (t ++ [p]) = appendLiquidityPoint (historyOfUpdates t) p := by
      simp [historyOfUpdates, List.foldl_append]
    refine ⟨?_, ?_, ?_⟩
    · rw [hfold]; exact appendLiquidityPoint_length _ _ ih.1
    · rw [hfold]
      refine (appendLiquidityPoint_suffix _ _).trans ?_
      rcases ih.2.1 with ⟨u, hu⟩
      exact ⟨u, by rw [← List.append_assoc, hu]⟩
    · rw [hfold, appendLiquidityPoint_getLast?, List.getLast?_concat]

/-- C7 counterexample: with a configured threshold and the 5-point
history 100, 95, 90, 85, 80 — a relative drop of exactly 20% between
the first and last of the last 5 points — the update emits no alert at
all, in particular no pool_drain alert, because the source requires a
drop strictly greater than 20%. -/
theorem pool_drain_exact_boundary_cex :
    calculateLiquidityDrop (cexDrainBoundaryHist.drop (cexDrainBoundaryHist.length - 5)) = 1/5 ∧
    5 ≤ cexDrainBoundaryHist.length ∧
    checkLiquidityAlertsForPool (some 50) cexDrainBoundaryHist ⟨4, 80, 0, 0⟩ = [] := by
  refine ⟨?_, by norm_num [cexDrainBoundaryHist], ?_⟩
  · norm_num [calculateLiquidityDrop, cexDrainBoundaryHist, List.headI, List.getLastI,
      List.getLastD]
  · norm_num [checkLiquidityAlertsForPool, cexDrainBoundaryHist, calculateLiquidityDrop,
      detectLiquidityAnomaly, List.headI, List.getLastI, List.getLastD]

/-- C7 (amended): for every pool with a configured threshold and at
least 5 stored points, a pool_drain alert with severity critical is
emitted exactly when the relative drop between the first and last of
the last 5 stored points is strictly greater than 20%; at or below 20%
(including when the last point is not below the first) no pool_drain
alert is emitted. -/
theorem pool_drain_strict_threshold (threshold : ℚ) (history : List LiquidityDataPoint)
    (dataPoint : LiquidityDataPoint) (h5 : 5 ≤ history.length) :
    ((1/5 : ℚ) < calculateLiquidityDrop (history.drop (history.length - 5)) →
      (⟨.pool_drain, .critical, dataPoint.liquidity, threshold,
        calculateLiquidityDrop (history.drop (history.length - 5))⟩ : LiquidityAlert) ∈
        checkLiquidityAlertsForPool (some threshold) history dataPoint) ∧
    (calculateLiquidityDrop (history.drop (history.length - 5)) ≤ 1/5 →
      ∀ a ∈ checkLiquidityAlertsForPool (some threshold) history dataPoint,
        a.type ≠ .pool_drain) := by
  unfold checkLiquidityAlertsForPool
  dsimp only
  constructor
  · intro hd
    rw [if_pos h5, if_pos hd]
    simp [List.mem_append]
  · intro hd a ha
    rw [if_pos h5, if_neg (not_lt.2 hd)] at ha
    simp only [List.mem_append, List.append_nil] at ha
    rcases ha with ha | ha
    · split_ifs at ha
      · simp at ha; simp [ha]
      · simp at ha
    · split_ifs at ha
      · simp at ha; simp [ha]
      · simp at ha

/-- Witness for C7 (amended): the history 100, 90, 80, 70, 60 has a 40%
drop over its last 5 points, and the critical pool_drain alert is
among the emitted alerts. -/
theorem pool_drain_strict_threshold_witness :
    (1/5 : ℚ) < calculateLiquidityDrop (witDrainHist.drop (witDrainHist.length - 5)) ∧
    (⟨.pool_drain, .critical, 60, 50,
      calculateLiquidityDrop (witDrainHist.drop (witDrainHist.length - 5))⟩ : LiquidityAlert) ∈
      checkLiquidityAlertsForPool (some 50) witDrainHist ⟨4, 60, 0, 0⟩ := by
  have hlt : (1/5 : ℚ) < calculateLiquidityDrop (witDrainHist.drop (witDrainHist.length - 5)) := by
    norm_num [calculateLiquidityDrop, witDrainHist, List.headI, List.getLastI, List.getLastD]
  exact ⟨hlt, (pool_drain_strict_threshold 50 witDrainHist ⟨4, 60, 0, 0⟩
    (by norm_num [witDrainHist])).1 hlt⟩

/-- C5 counterexample: the strictly increasing 10-point history with
liquidity values 1..10 (all inside the analysed window) is classified
volatile — its relative standard deviation exceeds 10% — not
increasing, so a strictly increasing sequence of at least 10 points
does not always yield `trend = increasing`. -/
theorem strictly_increasing_classified_volatile_cex :
    cexIncreasingHist.Chain' (fun p q => p.liquidity < q.liquidity) ∧
    10 ≤ cexIncreasingHist.length ∧
    filterDataByTimeframe cexIncreasingHist "all" 1009 = cexIncreasingHist ∧
    (getLiquidityTrend cexIncreasingHist "all" 1009).map (fun tr => tr.trend) =
      some .volatile := by
  have h1 : ("all" : String) ≠ "1m" := by decide
  have h2 : ("all" : String) ≠ "5m" := by decide
  have h3 : ("all" : String) ≠ "15m" := by decide
  have h4 : ("all" : String) ≠ "1h" := by decide
  have h5 : ("all" : String) ≠ "24h" := by decide
  have hfil : filterDataByTimeframe cexIncreasingHist "all" 1009 = cexIncreasingHist := by
    simp [filterDataByTimeframe, h1, h2, h3, h4, h5, cexIncreasingHist]
  refine ⟨?_, by norm_num [cexIncreasingHist], hfil, ?_⟩
  · norm_num [cexIncreasingHist, List.chain'_cons]
  · simp only [getLiquidityTrend, hfil]
    norm_num [cexIncreasingHist, calculateTrend, avgLiquidity, liquidityVariance,
      sumY, trendSlope, sumX, sumXY, sumX2, List.range_succ, List.enum, List.enumFrom]

/-- C5 (amended): a strictly increasing filtered window (of a history
with at least 10 points and at least 5 in the window, all values
positive) yields `trend = increasing` with `changePercent > 0`,
provided the window is not classified volatile (its variance is at most
`(mean/10)²`, i.e. relative standard deviation at most 10%) and not
classified stable (its OLS slope is at least 0.1% of the mean). -/
theorem getLiquidityTrend_increasing_amended (history d : List LiquidityDataPoint)
    (timeframe : String) (now : ℚ)
    (hfil : filterDataByTimeframe history timeframe now = d)
    (h10 : 10 ≤ history.length) (h5 : 5 ≤ d.length)
    (hmono : d.Chain' (fun p q => p.liquidity < q.liquidity))
    (hpos : ∀ p ∈ d, 0 < p.liquidity)
    (hvol : liquidityVariance d ≤ (avgLiquidity d / 10) ^ 2)
    (hslope : avgLiquidity d * (1/1000) ≤ trendSlope d) :
    getLiquidityTrend history timeframe now =
      some ⟨.increasing, calculateChangePercent d, calculateTrendConfidence d, d⟩ ∧
    0 < calculateChangePercent d := by
  have hne : d ≠ [] := by intro h; rw [h] at h5; simp at h5
  have havg : 0 < avgLiquidity d := by
    unfold avgLiquidity sumY
    apply div_pos
    · apply List.sum_pos
      · intro x hx
        rcases List.mem_map.1 hx with ⟨p, hp, rfl⟩
        exact hpos p hp
      · simpa using hne
    · have : 0 < d.length := by omega
      exact_mod_cast this
  have hsl : 0 < trendSlope d := lt_of_lt_of_le (by positivity) hslope
  have htrend : calculateTrend d = .increasing := by
    unfold calculateTrend
    rw [if_neg (by omega), if_neg (not_lt.2 hvol),
      if_neg (not_lt.2 (by rw [abs_of_pos hsl]; exact hslope)), if_pos hsl]
  have hchange : 0 < calculateChangePercent d := by
    unfold calculateChangePercent
    rw [if_neg (by omega)]
    have hfirst : 0 < (List.headI d).liquidity := by
      apply hpos
      match d, hne with
      | a :: rest, _ => exact List.mem_cons_self a rest
    have hlt := chain'_headI_lt_getLastI d hmono (by omega)
    have hdiff : 0 < (List.getLastI d).liquidity - (List.headI d).liquidity := by linarith
    positivity
  refine ⟨?_, hchange⟩
  unfold getLiquidityTrend
  rw [if_neg (by omega), hfil, if_neg (by omega), htrend]

/-- Witness for C5 (amended): the gently increasing history 1000, 1010,
…, 1090 (variance 825 against bound 10920.25, slope 10 against the
stability bound 1.045) is classified increasing with a positive change
percentage. -/
theorem getLiquidityTrend_increasing_amended_witness :
    getLiquidityTrend witIncreasingHist "all" 0 =
      some ⟨.increasing, calculateChangePercent witIncreasingHist,
            calculateTrendConfidence witIncreasingHist, witIncreasingHist⟩ ∧
    0 < calculateChangePercent witIncreasingHist :=
  getLiquidityTrend_increasing_amended witIncreasingHist witIncreasingHist "all" 0
    (by
      have h1 : ("all" : String) ≠ "1m" := by decide
      have h2 : ("all" : String) ≠ "5m" := by decide
      have h3 : ("all" : String) ≠ "15m" := by decide
      have h4 : ("all" : String) ≠ "1h" := by decide
      have h5 : ("all" : String) ≠ "24h" := by decide
      simp [filterDataByTimeframe, h1, h2, h3, h4, h5, witIncreasingHist])
    (by norm_num [witIncreasingHist])
    (by norm_num [witIncreasingHist])
    (by norm_num [witIncreasingHist, List.chain'_cons])
    (by
      intro p hp
      fin_cases hp <;> norm_num)
    (by norm_num [liquidityVariance, avgLiquidity, sumY, witIncreasingHist])
    (by norm_num [trendSlope, avgLiquidity, sumX, sumXY, sumX2, sumY, witIncreasingHist,
      List.range_succ, List.enum, List.enumFrom])

/-- C6: on the 10-point history whose liquidity values are all equal,
`calculateTrendConfidence` divides `residualSS = 0` by `totalSS = 0`;
in the source this is the float value `NaN` (modelled as `none`), which
propagates through `Math.max` and `Math.min` into the confidence of the
returned trend.  The returned confidence is therefore `NaN`, not a
number in [0,1] and not the 0.95-capped value the claim describes, so
the claim's "in particular" case fails on the code. -/
theorem trendConfidence_nan_on_constant_history :
    calculateTrendConfidence cexConstantHist = none ∧
    (getLiquidityTrend cexConstantHist "all" 9).map (fun tr => tr.confidence) =
      some none := by
  have h1 : ("all" : String) ≠ "1m" := by decide
  have h2 : ("all" : String) ≠ "5m" := by decide
  have h3 : ("all" : String) ≠ "15m" := by decide
  have h4 : ("all" : String) ≠ "1h" := by decide
  have h5 : ("all" : String) ≠ "24h" := by decide
  have hfil : filterDataByTimeframe cexConstantHist "all" 9 = cexConstantHist := by
    simp [filterDataByTimeframe, h1, h2, h3, h4, h5, cexConstantHist]
  have hconf : calculateTrendConfidence cexConstantHist = none := by
    norm_num [calculateTrendConfidence, cexConstantHist, sumY, List.zip, List.zipWith,
      List.tail]
  have hl10 : ¬ cexConstantHist.length < 10 := by norm_num [cexConstantHist]
  have hl5 : ¬ cexConstantHist.length < 5 := by norm_num [cexConstantHist]
  refine ⟨hconf, ?_⟩
  simp only [getLiquidityTrend, hfil, if_neg hl10, if_neg hl5]
  simp [hconf]
